import Mathlib

/-!
Shallow embedding of the whiteboard / chat / file-sharing logic of
`src/script.js` (class `CollabConnect`), together with a model of the
DrawingLog component that the specification describes (§3, §4.2) but the
source does not implement.

The DOM is abstracted: canvas 2D context state is carried explicitly
(current path, composite operation, stroke style, line width) and `stroke()`
appends the line segments of the current path, tagged with the context
attributes in force, to a `rendered` trace.  `socket.emit` is modelled
exactly as in `simulateBackend`: it logs to the console and synchronously
invokes `handleSocketMessage` on the same state; an `emitted` trace records
every send so that transmissions are observable.
-/

namespace CollabConnect

/-- A point on the canvas, produced as `clientX - rect.left` /
`clientY - rect.top` in `startDrawing` and `draw`. -/
structure Pt where
  x : Int
  y : Int
  deriving DecidableEq

/-- The relevant fields of a browser MouseEvent. -/
structure MouseEv where
  clientX : Int
  clientY : Int
  deriving DecidableEq

/-- The relevant fields of `e.target.getBoundingClientRect()`. -/
structure Rect where
  left : Int
  top : Int
  deriving DecidableEq

/-- One line segment actually stroked onto the canvas, tagged with the
context attributes (`globalCompositeOperation`, `strokeStyle`, `lineWidth`)
in force when `stroke()` ran. -/
structure Seg where
  p1 : Pt
  p2 : Pt
  compositeOp : String
  strokeStyle : String
  lineWidth : Nat
  deriving DecidableEq

/-- Canvas 2D context state: the current (sub)path and the attributes that
`startDrawing` sets, plus the `rendered` trace of all segments stroked so
far (`clearRect` empties it). -/
structure Ctx where
  path : List Pt
  compositeOp : String
  strokeStyle : String
  lineWidth : Nat
  rendered : List Seg
  deriving DecidableEq

/-- A chat message (`messageData` in `sendMessage`). -/
structure ChatMsg where
  id : Nat
  sender : String
  text : String
  isOwn : Bool
  deriving DecidableEq

/-- `fileData` as built in `handleFileUpload`.  In the source the id is
`Date.now() + Math.random()`, a nondeterministic fresh number; the model
draws it from a `nextId` counter in the state. -/
structure FileData where
  id : Nat
  name : String
  size : Nat
  ftype : String
  url : String
  uploader : String
  deriving DecidableEq

/-- The payloads passed as `data` to `socket.emit` / `handleSocketMessage`. -/
inductive SockData where
  | draw (x y : Int) (tool color : String) (size : Nat) (isDrawing : Bool)
  | clearData
  | chat (m : ChatMsg)
  | file (f : FileData)
  | join (roomId displayName : String)
  deriving DecidableEq

/-- The mutable state of a `CollabConnect` instance that the whiteboard,
chat and file-sharing code touches, plus observation traces: `emitted`
records every `socket.emit` call, `console` the `console.log` lines and
`toasts` the `showToast` calls. -/
structure AppState where
  isDrawing : Bool
  currentTool : String
  currentColor : String
  currentBrushSize : Nat
  ctx : Ctx
  chatMessages : List ChatMsg
  fileList : List FileData
  sharedFiles : List (Nat × FileData)
  displayName : String
  nextId : Nat
  emitted : List (String × SockData)
  console : List String
  toasts : List (String × String)
  deriving DecidableEq

/-- `showToast(message, type)`: recorded on the toast trace. -/
def showToast (message ttype : String) (s : AppState) : AppState :=
  { s with toasts := s.toasts ++ [(message, ttype)] }

/-- `addChatMessage(messageData)`: appends to the chat panel. -/
def addChatMessage (m : ChatMsg) (s : AppState) : AppState :=
  { s with chatMessages := s.chatMessages ++ [m] }

/-- JavaScript `Map.prototype.set`: replaces the value when the key is
present, otherwise appends the binding. -/
def mapSet (m : List (Nat × FileData)) (k : Nat) (v : FileData) :
    List (Nat × FileData) :=
  if m.any (fun p => p.1 = k) then
    m.map (fun p => if p.1 = k then (k, v) else p)
  else
    m ++ [(k, v)]

/-- `addFileToList(fileData)`: appends a row to the file-list panel and
stores the file in the `sharedFiles` map. -/
def addFileToList (f : FileData) (s : AppState) : AppState :=
  { s with
    fileList := s.fileList ++ [f]
    sharedFiles := mapSet s.sharedFiles f.id f }

/-- `handleSocketMessage(event, data)`: the `switch` at the bottom of the
class.  `join-room` only logs; `chat-message` adds the message unless the
sender is this participant; the `whiteboard-draw` case is empty;
`file-share` adds the file unless the uploader is this participant. -/
def handleSocketMessage (event : String) (data : SockData) (s : AppState) :
    AppState :=
  if event = "join-room" then
    { s with console := s.console ++ ["Joined room"] }
  else if event = "chat-message" then
    match data with
    | SockData.chat m => if m.sender ≠ s.displayName then addChatMessage m s else s
    | _ => s
  else if event = "whiteboard-draw" then
    s
  else if event = "file-share" then
    match data with
    | SockData.file f => if f.uploader ≠ s.displayName then addFileToList f s else s
    | _ => s
  else
    s

/-- `socket.emit(event, data)` as installed by `simulateBackend`: logs
`Socket emit: <event>` and directly invokes `this.handleSocketMessage(event,
data)`.  The `emitted` trace records the send. -/
def emit (event : String) (data : SockData) (s : AppState) : AppState :=
  handleSocketMessage event data
    { s with
      console := s.console ++ ["Socket emit: " ++ event]
      emitted := s.emitted ++ [(event, data)] }

/-- The consecutive-pair segments of a path, as `stroke()` draws them. -/
def pathSegs : List Pt → List (Pt × Pt)
  | [] => []
  | [_] => []
  | p :: q :: rest => (p, q) :: pathSegs (q :: rest)

/-- `ctx.stroke()`: strokes every segment of the current path with the
current context attributes, appending them to the rendered trace. -/
def strokeCtx (c : Ctx) : Ctx :=
  { c with
    rendered := c.rendered ++
      (pathSegs c.path).map
        (fun pq => ⟨pq.1, pq.2, c.compositeOp, c.strokeStyle, c.lineWidth⟩) }

/-- `startDrawing(e)`: unconditionally sets `isDrawing`, begins a new path
at the event point, and configures compositing from the current tool —
`destination-out` and triple width for the eraser, `source-over` with the
current colour otherwise. -/
def startDrawing (e : MouseEv) (r : Rect) (s : AppState) : AppState :=
  let x := e.clientX - r.left
  let y := e.clientY - r.top
  let c := s.ctx
  let c := { c with path := ([] : List Pt) ++ [Pt.mk x y] }
  let c :=
    if s.currentTool = "eraser" then
      { c with compositeOp := "destination-out",
               lineWidth := s.currentBrushSize * 3 }
    else
      { c with compositeOp := "source-over",
               strokeStyle := s.currentColor,
               lineWidth := s.currentBrushSize }
  { s with isDrawing := true, ctx := c }

/-- `draw(e)`: returns at once when not drawing; otherwise `lineTo` the
event point, `stroke()`, and emit the point as a `whiteboard-draw` event. -/
def draw (e : MouseEv) (r : Rect) (s : AppState) : AppState :=
  if s.isDrawing = false then s
  else
    let x := e.clientX - r.left
    let y := e.clientY - r.top
    let c := strokeCtx { s.ctx with path := s.ctx.path ++ [⟨x, y⟩] }
    emit "whiteboard-draw"
      (SockData.draw x y s.currentTool s.currentColor s.currentBrushSize true)
      { s with ctx := c }

/-- `stopDrawing()`: returns at once when not drawing; otherwise clears the
drawing flag and begins a fresh (empty) path. -/
def stopDrawing (s : AppState) : AppState :=
  if s.isDrawing = false then s
  else { s with isDrawing := false, ctx := { s.ctx with path := [] } }

/-- `clearWhiteboard()`: `clearRect` over the whole canvas, emit
`whiteboard-clear`, toast. -/
def clearWhiteboard (s : AppState) : AppState :=
  showToast "Whiteboard cleared" "info"
    (emit "whiteboard-clear" SockData.clearData
      { s with ctx := { s.ctx with rendered := [] } })

/-- An uploaded browser `File`: the fields `handleFileUpload` reads. -/
structure JsFile where
  name : String
  size : Nat
  ftype : String
  deriving DecidableEq

/-- The `fileData` object literal built in `handleFileUpload` for an
accepted file. -/
def uploadedFileData (s : AppState) (f : JsFile) : FileData :=
  { id := s.nextId, name := f.name, size := f.size, ftype := f.ftype,
    url := "blob:" ++ f.name, uploader := s.displayName }

/-- The body of the `forEach` in `handleFileUpload`: files over
`10 * 1024 * 1024` bytes are rejected with an error toast (the `return`
skips only that file); accepted files become a `fileData`, are added to the
list, emitted as `file-share`, and acknowledged with a success toast. -/
def processFile (s : AppState) (f : JsFile) : AppState :=
  if 10 * 1024 * 1024 < f.size then
    showToast "File too large (max 10MB)" "error" s
  else
    let fd := uploadedFileData s f
    let s := { s with nextId := s.nextId + 1 }
    let s := addFileToList fd s
    let s := emit "file-share" (SockData.file fd) s
    showToast ("File " ++ f.name ++ " uploaded") "success" s

/-- `handleFileUpload(files)`: processes each selected file in order. -/
def handleFileUpload (files : List JsFile) (s : AppState) : AppState :=
  files.foldl processFile s

/-- Everything in the state except the two traces that only `emit` writes
(`emitted`, `console`): used to compare the effect of `emit` with a direct
call of `handleSocketMessage`. -/
def coreView (s : AppState) :
    Bool × String × String × Nat × Ctx × List ChatMsg × List FileData ×
      List (Nat × FileData) × String × Nat × List (String × String) :=
  (s.isDrawing, s.currentTool, s.currentColor, s.currentBrushSize, s.ctx,
   s.chatMessages, s.fileList, s.sharedFiles, s.displayName, s.nextId,
   s.toasts)

/-- A blank initial context. -/
def ctx0 : Ctx :=
  { path := [], compositeOp := "source-over", strokeStyle := "#000000",
    lineWidth := 3, rendered := [] }

/-- A freshly initialised state: pen tool, black, size 3, not drawing. -/
def state0 : AppState :=
  { isDrawing := false, currentTool := "pen", currentColor := "#000000",
    currentBrushSize := 3, ctx := ctx0, chatMessages := [], fileList := [],
    sharedFiles := [], displayName := "You", nextId := 7, emitted := [],
    console := [], toasts := [] }

/-- A state in the middle of a pen gesture: one point already on the path. -/
def activeState : AppState :=
  { state0 with isDrawing := true, ctx := { ctx0 with path := [⟨5, 5⟩] } }

/-- A state with the eraser tool selected. -/
def eraserState : AppState := { state0 with currentTool := "eraser" }

/-- A state with the pen tool and white selected as the colour. -/
def penWhiteState : AppState := { state0 with currentColor := "#FFFFFF" }

/-- A sample pointer event. -/
def ev1 : MouseEv := ⟨10, 20⟩

/-- Another sample pointer event. -/
def ev2 : MouseEv := ⟨11, 21⟩

/-- A canvas bounding rectangle at the origin. -/
def rect0 : Rect := ⟨0, 0⟩

/-- A file one byte over the 10MB limit. -/
def bigFile : JsFile := ⟨"big.bin", 10 * 1024 * 1024 + 1, "application/zip"⟩

/-- A small file comfortably under the limit. -/
def smallFile : JsFile := ⟨"notes.txt", 1024, "text/plain"⟩

/-- JavaScript Map.set leaves the given binding in the map, whether the key
was present (overwrite) or absent (append). -/
theorem mapSet_mem (m : List (Nat × FileData)) (k : Nat) (v : FileData) :
    (k, v) ∈ mapSet m k v := by
  unfold mapSet
  split
  case isTrue h =>
    rcases List.any_eq_true.mp h with ⟨p, hp, hk⟩
    refine List.mem_map.mpr ⟨p, hp, ?_⟩
    simp [of_decide_eq_true hk]
  case isFalse h =>
    simp

end CollabConnect

namespace DrawingLog

/-- Modelled from the spec: the repository has no DrawingLog implementation
under `src/` (the socket is mocked and remote draw events are dropped), so
the event record of §3 is taken from the spec's words: an entry is a Stroke
or a ClearEvent, keyed by a per-participant logical clock combined with the
participant id. -/
inductive Payload where
  | stroke (tool color : String) (width : Nat) (points : List (Int × Int))
  | clear
  deriving DecidableEq

/-- Modelled from the spec: a DrawingLog entry with its (logical_clock,
participant_id) key. -/
structure LogEvent where
  clock : Nat
  pid : Nat
  payload : Payload
  deriving DecidableEq

/-- The (logical_clock, participant_id) key of an event. -/
def key (e : LogEvent) : Nat × Nat := (e.clock, e.pid)

/-- Whether an entry is a ClearEvent. -/
def isClear (e : LogEvent) : Bool :=
  match e.payload with
  | Payload.clear => true
  | _ => false

/-- Modelled from the spec: the total order on events, lexicographic on
(logical_clock, participant_id) — "order by (logical_clock, participant_id)
pair, not wall-clock". -/
def keyLe (a b : LogEvent) : Prop :=
  a.clock < b.clock ∨ (a.clock = b.clock ∧ a.pid ≤ b.pid)

instance : DecidableRel keyLe := fun a b => by
  unfold keyLe; infer_instance

instance : IsTotal LogEvent keyLe :=
  ⟨fun a b => by unfold keyLe; omega⟩

instance : IsTrans LogEvent keyLe :=
  ⟨fun a b c hab hbc => by unfold keyLe at *; omega⟩

/-- Modelled from the spec: sorting a replica's DrawingLog by the
(logical_clock, participant_id) order. -/
def sortLog (l : List LogEvent) : List LogEvent :=
  l.insertionSort keyLe

/-- Modelled from the spec: the replay window of §4.2/§3 — the suffix of
the log starting at the most recent ClearEvent ("skipping any events
preceding the nearest clear within that range"); when the log holds no
clear, the whole log. -/
def suffixFromLastClear : List LogEvent → List LogEvent
  | [] => []
  | e :: rest =>
    if rest.any (fun x => isClear x) then suffixFromLastClear rest
    else e :: rest

/-- Modelled from the spec: `replayFrom(position)` — the events from
`position` to the end of the log, truncated to the window after the most
recent clear in that range. -/
def replayFrom (log : List LogEvent) (pos : Nat) : List LogEvent :=
  suffixFromLastClear (log.drop pos)

/-- Two comparable-in-both-directions events carry the same key. -/
theorem key_eq_of_keyLe_antisymm {a b : LogEvent}
    (hab : keyLe a b) (hba : keyLe b a) : key a = key b := by
  unfold keyLe at hab hba
  unfold key
  have hc : a.clock = b.clock := by omega
  have hp : a.pid = b.pid := by omega
  rw [hc, hp]

/-- Sorted lists that are permutations of each other and whose keys are
pairwise distinct are equal, even though `keyLe` is not antisymmetric on
all of `LogEvent`. -/
theorem eq_of_sorted_of_perm_of_nodup_keys :
    ∀ l1 l2 : List LogEvent, l1.Perm l2 → l1.Sorted keyLe →
      l2.Sorted keyLe → (l1.map key).Nodup → l1 = l2 := by
  intro l1
  induction l1 with
  | nil =>
    intro l2 hp _ _ _
    exact (List.Perm.nil_eq hp).symm ▸ rfl
  | cons a t ih =>
    intro l2 hp hs1 hs2 hnd
    cases l2 with
    | nil =>
      exact absurd (List.Perm.nil_eq hp.symm) (by simp)
    | cons b t2 =>
      have hnd' : (∀ x ∈ t, ¬key x = key a) ∧ (t.map key).Nodup := by
        simpa using hnd
      have hab : a = b := by
        have hbmem : b ∈ a :: t := hp.symm.subset (List.mem_cons_self b t2)
        rcases List.mem_cons.mp hbmem with h | h
        · exact h.symm
        · have hamem : a ∈ b :: t2 := hp.subset (List.mem_cons_self a t)
          rcases List.mem_cons.mp hamem with h2 | h2
          · exact h2
          · have h1 : keyLe a b := (List.sorted_cons.mp hs1).1 b h
            have h2' : keyLe b a := (List.sorted_cons.mp hs2).1 a h2
            have hk : key a = key b := key_eq_of_keyLe_antisymm h1 h2'
            exact absurd hk.symm (hnd'.1 b h)
      subst hab
      have hp' : t.Perm t2 := hp.cons_inv
      rw [ih t2 hp' (List.sorted_cons.mp hs1).2 (List.sorted_cons.mp hs2).2
        hnd'.2]

/-- When position P holds a ClearEvent and no clear follows it, the replay
window from the top of the log is exactly the suffix starting at P. -/
theorem suffixFromLastClear_eq_drop :
    ∀ (l : List LogEvent) (P : Nat) (e : LogEvent),
      l[P]? = some e → isClear e = true →
      (l.drop (P + 1)).all (fun x => !isClear x) →
      suffixFromLastClear l = l.drop P := by
  intro l
  induction l with
  | nil => intro P e hP _ _; simp at hP
  | cons a t ih =>
    intro P e hP hc hafter
    cases P with
    | zero =>
      have ha : a = e := by simpa using hP
      have hnone : t.any (fun x => isClear x) = false := by
        rw [List.any_eq_false]
        intro x hx
        have h2 : ∀ x ∈ t, isClear x = false := by simpa using hafter
        simpa using h2 x hx
      unfold suffixFromLastClear
      rw [hnone]
      simp
    | succ n =>
      have hget : t[n]? = some e := by simpa using hP
      have hmem : e ∈ t := List.getElem?_mem hget
      have hsome : t.any (fun x => isClear x) = true :=
        List.any_eq_true.mpr ⟨e, hmem, hc⟩
      unfold suffixFromLastClear
      rw [hsome]
      simpa using ih n e hget hc (by simpa using hafter)

/-- Stroke from participant 0 at logical clock 1. -/
def evA : LogEvent := ⟨1, 0, Payload.stroke "pen" "#000000" 3 [(0, 0), (1, 1)]⟩

/-- Stroke from participant 1, concurrently at logical clock 1. -/
def evB : LogEvent := ⟨1, 1, Payload.stroke "pen" "#ff0000" 3 [(2, 2), (3, 3)]⟩

/-- A ClearEvent from participant 0 at logical clock 2. -/
def evClear2 : LogEvent := ⟨2, 0, Payload.clear⟩

/-- A ClearEvent from participant 0 at logical clock 0. -/
def evClear0 : LogEvent := ⟨0, 0, Payload.clear⟩

/-- A log whose clear at position 0 is followed by a stroke and a second,
later clear. -/
def doubleClearLog : List LogEvent := [evClear0, evA, evClear2]

/-- A log with a stroke, then a final clear at position 1, then a stroke. -/
def witLog : List LogEvent := [evA, evClear2, evB]

end DrawingLog

namespace CollabConnect

/-- The whiteboard-draw case of the handleSocketMessage switch is empty:
the state is returned untouched. -/
theorem hsm_whiteboard_draw_eq (d : SockData) (s : AppState) :
    handleSocketMessage "whiteboard-draw" d s = s := rfl

/-- C2, counterexample: in a state that is mid-gesture (Active), a
pointer-down is not ignored — startDrawing replaces the current one-point
path, so the claim that pointer-down while Active leaves the stroke and
drawing state unchanged is false on the code. -/
theorem startDrawing_while_active_counterexample :
    activeState.isDrawing = true ∧
    startDrawing ev1 rect0 activeState ≠ activeState := by
  decide

/-- C2, amended: startDrawing runs unconditionally — any pointer-down,
whether Idle or Active, sets isDrawing and begins a fresh path at the event
point (abandoning any path in progress), while rendering and transmitting
nothing by itself. -/
theorem startDrawing_unconditional (s : AppState) (e : MouseEv) (r : Rect) :
    (startDrawing e r s).isDrawing = true ∧
    (startDrawing e r s).ctx.path = [⟨e.clientX - r.left, e.clientY - r.top⟩] ∧
    (startDrawing e r s).ctx.rendered = s.ctx.rendered ∧
    (startDrawing e r s).emitted = s.emitted := by
  unfold startDrawing
  by_cases h : s.currentTool = "eraser" <;> simp [h]

/-- C3: with the eraser tool, startDrawing configures destructive
destination-out compositing (and triple line width); with the pen tool it
configures source-over with the selected colour; the two composite
operations differ, so an eraser stroke is distinguishable from a white pen
stroke; and the segment a following draw renders during an eraser gesture
carries the destination-out operation. -/
theorem eraser_destructive_compositing (s s' : AppState) (e e2 : MouseEv)
    (r : Rect) (hs : s.currentTool = "eraser") (hp : s'.currentTool = "pen") :
    (startDrawing e r s).ctx.compositeOp = "destination-out" ∧
    (startDrawing e r s).ctx.lineWidth = s.currentBrushSize * 3 ∧
    (startDrawing e r s').ctx.compositeOp = "source-over" ∧
    (startDrawing e r s').ctx.strokeStyle = s'.currentColor ∧
    (startDrawing e r s).ctx.compositeOp ≠
      (startDrawing e r s').ctx.compositeOp ∧
    (draw e2 r (startDrawing e r s)).ctx.rendered = s.ctx.rendered ++
      [⟨⟨e.clientX - r.left, e.clientY - r.top⟩,
        ⟨e2.clientX - r.left, e2.clientY - r.top⟩, "destination-out",
        s.ctx.strokeStyle, s.currentBrushSize * 3⟩] := by
  unfold startDrawing draw emit handleSocketMessage strokeCtx
  simp [hs, hp, pathSegs]

/-- C3 witness: concrete eraser and white-pen states compared at a sample
pointer event. -/
theorem eraser_destructive_compositing_witness :
    eraserState.currentTool = "eraser" ∧
    penWhiteState.currentTool = "pen" ∧
    (startDrawing ev1 rect0 eraserState).ctx.compositeOp ≠
      (startDrawing ev1 rect0 penWhiteState).ctx.compositeOp :=
  ⟨rfl, rfl,
    (eraser_destructive_compositing eraserState penWhiteState ev1 ev2 rect0
      rfl rfl).2.2.2.2.1⟩

/-- C5, counterexample: calling draw when no stroke is active returns the
state completely unchanged — a silent no-op, with no InvalidState error, no
toast and no emission, so the claim that it fails with a surfaced error is
false on the code. -/
theorem draw_after_end_silent_counterexample :
    state0.isDrawing = false ∧ draw ev1 rect0 state0 = state0 := by
  decide

/-- C5, amended: extending when no stroke is active (isDrawing false, the
gesture already ended) is a silent no-op — draw returns the state
unchanged and raises nothing. -/
theorem draw_when_inactive_noop (s : AppState) (e : MouseEv) (r : Rect)
    (h : s.isDrawing = false) : draw e r s = s := by
  unfold draw
  simp [h]

/-- C5 witness: the idle initial state at a sample event. -/
theorem draw_when_inactive_noop_witness :
    state0.isDrawing = false ∧ draw ev2 rect0 state0 = state0 :=
  ⟨rfl, draw_when_inactive_noop state0 ev2 rect0 rfl⟩

/-- C6, counterexample: a pointer-move of zero magnitude (to the very point
already at the end of the path) is not a no-op — the point is appended and
a whiteboard-draw event is emitted — so the claimed minimum-distance
threshold does not exist in the code. -/
theorem draw_zero_move_counterexample :
    activeState.isDrawing = true ∧
    activeState.ctx.path = [⟨5, 5⟩] ∧
    (draw ⟨5, 5⟩ rect0 activeState).ctx.path = [⟨5, 5⟩, ⟨5, 5⟩] ∧
    (draw ⟨5, 5⟩ rect0 activeState).emitted ≠ activeState.emitted := by
  decide

/-- C6, amended: while a stroke is Active, every pointer-move appends its
point to the path and emits a whiteboard-draw event, regardless of the
movement magnitude — there is no minimum pixel threshold. -/
theorem draw_appends_every_move (s : AppState) (e : MouseEv) (r : Rect)
    (h : s.isDrawing = true) :
    (draw e r s).ctx.path =
      s.ctx.path ++ [⟨e.clientX - r.left, e.clientY - r.top⟩] ∧
    (draw e r s).emitted = s.emitted ++ [("whiteboard-draw",
      SockData.draw (e.clientX - r.left) (e.clientY - r.top) s.currentTool
        s.currentColor s.currentBrushSize true)] := by
  unfold draw emit handleSocketMessage strokeCtx
  simp [h]

/-- C6 witness: the active sample state at a sample event. -/
theorem draw_appends_every_move_witness :
    activeState.isDrawing = true ∧
    (draw ev1 rect0 activeState).ctx.path = activeState.ctx.path ++
      [⟨ev1.clientX - rect0.left, ev1.clientY - rect0.top⟩] :=
  ⟨rfl, (draw_appends_every_move activeState ev1 rect0 rfl).1⟩

/-- C7: a remote whiteboard-draw event delivered to handleSocketMessage is
discarded — the switch case is empty, so the state (canvas included) is
returned untouched and no delta is re-rendered, contradicting the claim
that every received remote draw event produces some rendering effect. -/
theorem remote_draw_event_discarded (d : SockData) (s : AppState) :
    handleSocketMessage "whiteboard-draw" d s = s :=
  hsm_whiteboard_draw_eq d s

/-- C9: a pointer-down immediately followed by a pointer-up with no
intervening move renders nothing onto the surface, transmits nothing, and
returns the gesture to Idle — the degenerate zero-segment stroke is a
no-op. -/
theorem click_without_move_renders_nothing (s : AppState) (e : MouseEv)
    (r : Rect) :
    (stopDrawing (startDrawing e r s)).ctx.rendered = s.ctx.rendered ∧
    (stopDrawing (startDrawing e r s)).emitted = s.emitted ∧
    (stopDrawing (startDrawing e r s)).isDrawing = false := by
  unfold startDrawing stopDrawing
  by_cases h : s.currentTool = "eraser" <;> simp [h]

/-- handleSocketMessage neither reads nor writes the console and emitted
traces: its core effect is unchanged when they are, and it leaves the
emitted trace exactly as it found it. -/
theorem handleSocketMessage_trace_invariant (ev : String) (d : SockData)
    (s : AppState) (cs : List String) (em : List (String × SockData)) :
    coreView (handleSocketMessage ev d { s with console := cs, emitted := em })
      = coreView (handleSocketMessage ev d s) ∧
    (handleSocketMessage ev d
      { s with console := cs, emitted := em }).emitted = em := by
  unfold handleSocketMessage addChatMessage addFileToList coreView
  by_cases h1 : ev = "join-room" <;> by_cases h2 : ev = "chat-message" <;>
    by_cases h3 : ev = "whiteboard-draw" <;> by_cases h4 : ev = "file-share" <;>
    cases d <;> simp [h1, h2, h3, h4] <;> split <;> simp

/-- C8: the mocked socket is a direct loopback — emit(event, data) has
exactly the core effect of a synchronous call of the same object's
handleSocketMessage(event, data); the only send/receive record is the
appended trace entry, with no queue or asynchronous boundary. -/
theorem emit_is_direct_loopback (ev : String) (d : SockData) (s : AppState) :
    coreView (emit ev d s) = coreView (handleSocketMessage ev d s) ∧
    (emit ev d s).emitted = s.emitted ++ [(ev, d)] := by
  unfold emit
  exact handleSocketMessage_trace_invariant ev d s
    (s.console ++ ["Socket emit: " ++ ev]) (s.emitted ++ [(ev, d)])

/-- C10: handleFileUpload rejects a file over 10 * 1024 * 1024 bytes with
an error toast, leaving the file list, the sharedFiles map, and the
emission trace unchanged; a file at or under the limit is appended to the
file list, stored in sharedFiles, announced via a file-share emission, and
acknowledged with a success toast. -/
theorem fileUpload_size_limit (s : AppState) (f : JsFile) :
    (10 * 1024 * 1024 < f.size →
      (handleFileUpload [f] s).fileList = s.fileList ∧
      (handleFileUpload [f] s).sharedFiles = s.sharedFiles ∧
      (handleFileUpload [f] s).emitted = s.emitted ∧
      (handleFileUpload [f] s).toasts =
        s.toasts ++ [("File too large (max 10MB)", "error")]) ∧
    (f.size ≤ 10 * 1024 * 1024 →
      (handleFileUpload [f] s).fileList = s.fileList ++ [uploadedFileData s f] ∧
      ((uploadedFileData s f).id, uploadedFileData s f) ∈
        (handleFileUpload [f] s).sharedFiles ∧
      (handleFileUpload [f] s).emitted =
        s.emitted ++ [("file-share", SockData.file (uploadedFileData s f))] ∧
      (handleFileUpload [f] s).toasts =
        s.toasts ++ [("File " ++ f.name ++ " uploaded", "success")]) := by
  constructor
  · intro h
    unfold handleFileUpload processFile showToast
    simp [h]
  · intro h
    have h' : ¬10 * 1024 * 1024 < f.size := Nat.not_lt.mpr h
    unfold handleFileUpload processFile showToast addFileToList emit
      handleSocketMessage
    simp [h', uploadedFileData, mapSet_mem]

/-- C10 witness: a file one byte over the limit is rejected and a small
file is added, starting from the initial state. -/
theorem fileUpload_size_limit_witness :
    10 * 1024 * 1024 < bigFile.size ∧
    (handleFileUpload [bigFile] state0).fileList = state0.fileList ∧
    smallFile.size ≤ 10 * 1024 * 1024 ∧
    (handleFileUpload [smallFile] state0).fileList =
      state0.fileList ++ [uploadedFileData state0 smallFile] :=
  ⟨by decide, ((fileUpload_size_limit state0 bigFile).1 (by decide)).1,
   by decide, ((fileUpload_size_limit state0 smallFile).2 (by decide)).1⟩

end CollabConnect

namespace DrawingLog

/-- C1: two replicas that hold the same set of stroke and clear events, in
whatever arrival order (their logs are permutations of one another), and
whose events carry pairwise distinct (logical_clock, participant_id) keys,
have identical DrawingLogs after sorting by that key — every replica
renders the board in the identical order. -/
theorem replica_convergence (l1 l2 : List LogEvent) (hp : l1.Perm l2)
    (hnd : (l1.map key).Nodup) : sortLog l1 = sortLog l2 := by
  apply eq_of_sorted_of_perm_of_nodup_keys
  · exact (List.perm_insertionSort keyLe l1).trans
      (hp.trans (List.perm_insertionSort keyLe l2).symm)
  · exact List.sorted_insertionSort keyLe l1
  · exact List.sorted_insertionSort keyLe l2
  · exact ((List.perm_insertionSort keyLe l1).map key).nodup_iff.mpr hnd

/-- C1 witness: two concurrent strokes with clock 1 from participants 0 and
1, received in opposite orders, sort identically. -/
theorem replica_convergence_witness :
    ([evB, evA] : List LogEvent).Perm [evA, evB] ∧
    (([evB, evA] : List LogEvent).map key).Nodup ∧
    sortLog [evB, evA] = sortLog [evA, evB] :=
  ⟨by decide, by decide,
    replica_convergence [evB, evA] [evA, evB] (by decide) (by decide)⟩

/-- C4, counterexample: in a log whose clear at position 0 is followed by a
stroke and then a second clear, the stroke sits at position 1, at or after
P = 0, yet is omitted from replayFrom(0) — so a clear at position P does
not in general retain every stroke at or after P. -/
theorem clear_replay_counterexample :
    isClear evClear0 = true ∧
    doubleClearLog[0]? = some evClear0 ∧
    doubleClearLog[1]? = some evA ∧
    isClear evA = false ∧
    evA ∉ replayFrom doubleClearLog 0 := by
  decide

/-- C4, amended: when the clear at position P is the last clear of the log,
replayFrom(0) is exactly the suffix of the log from P — every stroke
strictly before P is omitted and every stroke at or after P is retained. -/
theorem clear_truncates_replay (log : List LogEvent) (P : Nat) (e : LogEvent)
    (hP : log[P]? = some e) (hc : isClear e = true)
    (hlast : (log.drop (P + 1)).all (fun x => !isClear x)) :
    replayFrom log 0 = log.drop P := by
  unfold replayFrom
  rw [List.drop_zero]
  exact suffixFromLastClear_eq_drop log P e hP hc hlast

/-- C4 witness: a stroke, a final clear at position 1, then a stroke —
replay from the top is the suffix from the clear. -/
theorem clear_truncates_replay_witness :
    witLog[1]? = some evClear2 ∧ isClear evClear2 = true ∧
    (witLog.drop 2).all (fun x => !isClear x) = true ∧
    replayFrom witLog 0 = witLog.drop 1 :=
  ⟨by decide, by decide, by decide,
    clear_truncates_replay witLog 1 evClear2 (by decide) (by decide)
      (by decide)⟩

end DrawingLog
